import Mathlib

/-!
Verification of the invoice-reconciliation loop of `src/app.py` (repository
Ktolosa/OCR2).  The file `app.py` contains two near-duplicate scripts
concatenated: a first (CSV-download) variant whose page loop is at lines
129-186, and a second (Excel-download) variant whose page loop is at lines
359-422.  Both loops share the same skip / invoice-carry / summary logic and
differ only in how an accepted line item is tagged:

* variant 1 (lines 166-169): sets `item["Archivo_Origen"] = filename` and
  `item["Factura_Origen"] = factura_id`, no field defaulting;
* variant 2 (lines 394-406): sets `item["Factura_Origen"] = factura_id` and
  then defaults `origen` (missing or None -> ""), `modelo`, `descripcion`
  (missing -> ""), `cantidad` (missing -> 0), `precio_unitario`
  (missing -> 0.0); it does not attach the source file.

We embed the shared loop once per variant (`pageStep` / `procesar` for
variant 2, `pageStepV1` / `procesarV1` for variant 1).  JSON scalar values
are modelled by `Atom` (the extractor's schema yields scalars for
`tipo_documento`, `numero_factura`, `total_factura`, `cliente`, and a list of
flat objects for `items`); Python's `str()` is modelled on scalars by
`Atom.pyStr`.  Python dict operations on an item (`k in d`, `d[k]`,
`d[k] = v`) are modelled by `dictHasKey`, `dictGet`, `dictSet` over an
association list that keeps Python's insertion-order semantics.
`str.strip()` is `pyStrip` (ASCII whitespace), `str.lower()` is `pyLower`
(ASCII case folding), and the substring test `"copia" in s` is `strHasSub`.
The Streamlit progress bar and `time.sleep` calls are pure UI and are not
modelled; `st.error` reporting is modelled by the `errors` component of the
reconciliation state.
-/

namespace OCR2

/-- A scalar JSON value as returned by the page extractor (`analizar_pagina`
parses the model's JSON answer with `json.loads`). -/
inductive Atom where
  | aNone : Atom
  | aStr : String → Atom
  | aInt : Int → Atom
  | aFloat : Rat → Atom
deriving DecidableEq

/-- Python `str()` on a scalar JSON value (`str(None) = "None"`). -/
def Atom.pyStr : Atom → String
  | Atom.aNone => "None"
  | Atom.aStr s => s
  | Atom.aInt n => toString n
  | Atom.aFloat q => toString q

/-- A line-item object: a Python dict with string keys and scalar values,
in insertion order. -/
abbrev Dict := List (String × Atom)

/-- Python `k in d`. -/
def dictHasKey : Dict → String → Bool
  | [], _ => false
  | (k', _) :: rest, k => k' == k || dictHasKey rest k

/-- Python `d.get(k)` / `d[k]`. -/
def dictGet : Dict → String → Option Atom
  | [], _ => none
  | (k', v') :: rest, k => if k' == k then some v' else dictGet rest k

/-- Python `d[k] = v`: replace in place if the key exists, else append. -/
def dictSet : Dict → String → Atom → Dict
  | [], k, v => [(k, v)]
  | (k', v') :: rest, k, v =>
    if k' == k then (k, v) :: rest else (k', v') :: dictSet rest k v

/-- Python `str.lower()` on ASCII letters (all strings compared by the loop
are ASCII). -/
def charLower (c : Char) : Char :=
  if 65 ≤ c.toNat && c.toNat ≤ 90 then Char.ofNat (c.toNat + 32) else c

/-- Python `str.lower()`. -/
def pyLower (s : String) : String :=
  String.mk (s.toList.map charLower)

/-- Whitespace stripped by Python `str.strip()` (ASCII part). -/
def isSpaceChar (c : Char) : Bool :=
  c == ' ' || c == '\t' || c == '\n' || c == '\r' || c == '\u000B' || c == '\u000C'

/-- Python `str.strip()`. -/
def pyStrip (s : String) : String :=
  String.mk (((s.toList.dropWhile isSpaceChar).reverse.dropWhile isSpaceChar).reverse)

/-- Test whether `leadsWith n h`: when the char list `n` is an initial segment of `h`. -/
def leadsWith : List Char → List Char → Bool
  | [], _ => true
  | _ :: _, [] => false
  | c :: cs, d :: ds => c == d && leadsWith cs ds

/-- Occurrence of `needle` anywhere in `hay`. -/
def charsSub (needle : List Char) : List Char → Bool
  | [] => needle.isEmpty
  | h :: t => leadsWith needle (h :: t) || charsSub needle t

/-- Python `needle in hay` on strings. -/
def strHasSub (hay needle : String) : Bool :=
  charsSub needle.toList hay.toList

/-- The extractor's per-page JSON record, as consumed by `procesar_pdf`.
`items` is `some l` when the key `"items"` is present and its value is a
list (of objects); `itemsNotList` records a present `"items"` key whose
value is not a list (it fails the `isinstance(data["items"], list)` guard
but still makes the dict non-empty); `extraKeys` records any further keys
(their values are never consulted by the loop). -/
structure PageData where
  tipo_documento : Option Atom
  numero_factura : Option Atom
  total_factura : Option Atom
  cliente : Option Atom
  items : Option (List Dict)
  itemsNotList : Bool
  extraKeys : List String
deriving DecidableEq

/-- Python truthiness of the record dict (`not data` is true exactly when
the dict has no keys). -/
def PageData.truthy (d : PageData) : Bool :=
  d.tipo_documento.isSome || d.numero_factura.isSome || d.total_factura.isSome ||
  d.cliente.isSome || d.items.isSome || d.itemsNotList || !d.extraKeys.isEmpty

/-- Computes `str(data.get("tipo_documento", ""))`. -/
def markingText (d : PageData) : String :=
  Atom.pyStr (d.tipo_documento.getD (Atom.aStr ""))

/-- The copy filter of lines 151 and 380:
`"copia" in str(data.get("tipo_documento", "")).lower()`. -/
def isCopia (d : PageData) : Bool :=
  strHasSub (pyLower (markingText d)) "copia"

/-- Computes `factura_actual = str(data.get("numero_factura", "")).strip()`
(lines 155 and 383). -/
def candOf (d : PageData) : String :=
  pyStrip (Atom.pyStr (d.numero_factura.getD (Atom.aStr "")))

/-- The sentinel words of lines 158 and 386. -/
def sentinelWords : List String := ["none", "null", "continuacion", "pendiente"]

/-- The unusable-candidate test of lines 158 and 386:
`not factura_actual or factura_actual.lower() in [...] or len(factura_actual) < 3`. -/
def unusableB (c : String) : Bool :=
  c == "" || sentinelWords.contains (pyLower c) || decide (c.length < 3)

/-- Value of `data["items"]` when present and a list, else the empty list (guard
`"items" in data and isinstance(data["items"], list)`, lines 165 and 393). -/
def itemsOf (d : PageData) : List Dict :=
  d.items.getD []

/-- One page's outcome from `analizar_pagina`: either a reported failure
(the function then returned an empty record together with the message), or
a parsed record. -/
inductive PageOut where
  | err : String → PageOut
  | ok : PageData → PageOut
deriving DecidableEq

/-- A page is skipped when the extractor reported a failure, when the record
is empty, or when its marking contains "copia" (lines 147-152 / 377-381). -/
def skippedB : PageOut → Bool
  | PageOut.err _ => true
  | PageOut.ok d => !d.truthy || isCopia d

/-- A row of `resumen_local` (lines 175-180 / 411-416). -/
structure SummaryRow where
  archivo : String
  factura : String
  total : Atom
  cliente : Atom
deriving DecidableEq

/-- The predicate used by `ya_existe` (lines 173 / 409):
`d['Factura'] == factura_id and d['Archivo'] == filename`. -/
def rowMatches (facturaId filename : String) (r : SummaryRow) : Bool :=
  r.factura == facturaId && r.archivo == filename

/-- The loop state of `procesar_pdf`: the carried invoice number
`ultimo_numero_factura`, the accumulators `items_locales` and
`resumen_local`, and the messages surfaced through `st.error`. -/
structure RState where
  ultimo : String
  items : List Dict
  resumen : List SummaryRow
  errors : List String
deriving DecidableEq

/-- Variant 2 item tagging and defaulting, lines 394-406, innermost first:
`item["Factura_Origen"] = factura_id`, then the `origen`, `modelo`,
`descripcion`, `cantidad`, `precio_unitario` defaults. -/
def setFactura (facturaId : String) (it : Dict) : Dict :=
  dictSet it "Factura_Origen" (Atom.aStr facturaId)

/-- Line 399-400: `if "origen" not in item or item["origen"] is None:
item["origen"] = ""`. -/
def fixOrigen (it : Dict) : Dict :=
  if !dictHasKey it "origen" || dictGet it "origen" == some Atom.aNone
  then dictSet it "origen" (Atom.aStr "") else it

/-- Line 401: `if "modelo" not in item: item["modelo"] = ""`. -/
def fixModelo (it : Dict) : Dict :=
  if !dictHasKey it "modelo" then dictSet it "modelo" (Atom.aStr "") else it

/-- Line 402: `if "descripcion" not in item: item["descripcion"] = ""`. -/
def fixDescripcion (it : Dict) : Dict :=
  if !dictHasKey it "descripcion" then dictSet it "descripcion" (Atom.aStr "") else it

/-- Line 403: `if "cantidad" not in item: item["cantidad"] = 0`. -/
def fixCantidad (it : Dict) : Dict :=
  if !dictHasKey it "cantidad" then dictSet it "cantidad" (Atom.aInt 0) else it

/-- Line 404: `if "precio_unitario" not in item: item["precio_unitario"] = 0.0`. -/
def fixPrecio (it : Dict) : Dict :=
  if !dictHasKey it "precio_unitario" then dictSet it "precio_unitario" (Atom.aFloat 0) else it

/-- The complete per-item processing of variant 2 (lines 394-406). -/
def tagItem (facturaId : String) (it : Dict) : Dict :=
  fixPrecio (fixCantidad (fixDescripcion (fixModelo (fixOrigen (setFactura facturaId it)))))

/-- The per-item processing of variant 1 (lines 166-168):
`item["Archivo_Origen"] = filename; item["Factura_Origen"] = factura_id`,
no defaulting. -/
def tagItemV1 (filename facturaId : String) (it : Dict) : Dict :=
  dictSet (dictSet it "Archivo_Origen" (Atom.aStr filename)) "Factura_Origen" (Atom.aStr facturaId)

/-- One iteration of the variant-2 page loop (lines 374-416) over state `s`. -/
def pageStep (filename : String) (s : RState) (p : PageOut) : RState :=
  match p with
  | PageOut.err msg =>
    RState.mk s.ultimo s.items s.resumen (s.errors ++ [msg])
  | PageOut.ok d =>
    if !d.truthy || isCopia d then s
    else
      let cand := candOf d
      let facturaId := if unusableB cand then s.ultimo else cand
      let ultimo' := if unusableB cand then s.ultimo else cand
      let items' := s.items ++ (itemsOf d).map (tagItem facturaId)
      let yaExiste := s.resumen.any (rowMatches facturaId filename)
      let resumen' :=
        if !yaExiste && facturaId != "S/N"
        then s.resumen ++
          [SummaryRow.mk filename facturaId (d.total_factura.getD Atom.aNone)
            (d.cliente.getD Atom.aNone)]
        else s.resumen
      RState.mk ultimo' items' resumen' s.errors

/-- One iteration of the variant-1 page loop (lines 144-180); identical to
`pageStep` except for the item tagging. -/
def pageStepV1 (filename : String) (s : RState) (p : PageOut) : RState :=
  match p with
  | PageOut.err msg =>
    RState.mk s.ultimo s.items s.resumen (s.errors ++ [msg])
  | PageOut.ok d =>
    if !d.truthy || isCopia d then s
    else
      let cand := candOf d
      let facturaId := if unusableB cand then s.ultimo else cand
      let ultimo' := if unusableB cand then s.ultimo else cand
      let items' := s.items ++ (itemsOf d).map (tagItemV1 filename facturaId)
      let yaExiste := s.resumen.any (rowMatches facturaId filename)
      let resumen' :=
        if !yaExiste && facturaId != "S/N"
        then s.resumen ++
          [SummaryRow.mk filename facturaId (d.total_factura.getD Atom.aNone)
            (d.cliente.getD Atom.aNone)]
        else s.resumen
      RState.mk ultimo' items' resumen' s.errors

/-- Initial loop state: `ultimo_numero_factura = "S/N"`, empty accumulators
(lines 136-140 / 367-370). -/
def initS : RState := RState.mk "S/N" [] [] []

/-- The page loop of variant 2 from a given state. -/
def runFrom (filename : String) : RState → List PageOut → RState
  | s, [] => s
  | s, p :: ps => runFrom filename (pageStep filename s p) ps

/-- The page loop of variant 1 from a given state. -/
def runFromV1 (filename : String) : RState → List PageOut → RState
  | s, [] => s
  | s, p :: ps => runFromV1 filename (pageStepV1 filename s p) ps

/-- The loop of `procesar_pdf` (variant 2) on the sequence of per-page extractor
outcomes for one file, starting from the initial state. -/
def procesar (filename : String) (pages : List PageOut) : RState :=
  runFrom filename initS pages

/-- The loop of `procesar_pdf` (variant 1). -/
def procesarV1 (filename : String) (pages : List PageOut) : RState :=
  runFromV1 filename initS pages

/-- The invoice id a non-skipped page resolves to in state `s`
(`factura_id` at lines 158-161 / 386-389). -/
def resolvedId (s : RState) (d : PageData) : String :=
  if unusableB (candOf d) then s.ultimo else candOf d

/-- The resolved invoice id of a page processed in state `s`, `none` for a
skipped page. -/
def resolvedOf (s : RState) (p : PageOut) : Option String :=
  match p with
  | PageOut.err _ => none
  | PageOut.ok d =>
    if !d.truthy || isCopia d then none
    else some (resolvedId s d)

/-- The per-page resolved ids of a run, threading the state. -/
def traceFrom (filename : String) : RState → List PageOut → List (Option String)
  | _, [] => []
  | s, p :: ps => resolvedOf s p :: traceFrom filename (pageStep filename s p) ps

/-- The per-page resolved ids of a whole-file run of variant 2. -/
def resolvedTrace (filename : String) (pages : List PageOut) : List (Option String) :=
  traceFrom filename initS pages

/-- A page that is non-skipped and carries a usable candidate id: the only
kind of page that can change the carried state. -/
def contributesId : PageOut → Bool
  | PageOut.err _ => false
  | PageOut.ok d => !(!d.truthy || isCopia d) && !unusableB (candOf d)

/-- Every page of the list is skipped. -/
def allSkipped (ps : List PageOut) : Bool :=
  ps.all skippedB

/-- No page of the list contributes a usable invoice id. -/
def noUsableId (ps : List PageOut) : Bool :=
  ps.all (fun p => !contributesId p)

/-- The summary accumulator holds no two rows with the same
(file, invoice id) key. -/
def distinctRows : List SummaryRow → Bool
  | [] => true
  | r :: rs => !(rs.any (rowMatches r.factura r.archivo)) && distinctRows rs

/-- All six keys variant 2 guarantees on an accepted item. -/
def itemComplete (it : Dict) : Bool :=
  dictHasKey it "Factura_Origen" && dictHasKey it "modelo" &&
  dictHasKey it "descripcion" && dictHasKey it "cantidad" &&
  dictHasKey it "precio_unitario" && dictHasKey it "origen"

/-! ### Dictionary lemmas -/

theorem dictHasKey_set_self (d : Dict) (k : String) (v : Atom) :
    dictHasKey (dictSet d k v) k = true := by
  induction d with
  | nil => simp [dictSet, dictHasKey]
  | cons p t ih =>
    rcases p with ⟨k', v'⟩
    by_cases h : k' = k
    · simp [dictSet, dictHasKey, h]
    · simp [dictSet, dictHasKey, h, ih]

theorem dictHasKey_set_other (d : Dict) (k k' : String) (v : Atom) (h : k' ≠ k) :
    dictHasKey (dictSet d k v) k' = dictHasKey d k' := by
  induction d with
  | nil => simp [dictSet, dictHasKey, Ne.symm h]
  | cons p t ih =>
    rcases p with ⟨k₀, v₀⟩
    by_cases h₀ : k₀ = k
    · subst h₀
      simp [dictSet, dictHasKey, Ne.symm h]
    · simp [dictSet, dictHasKey, h₀, ih]

theorem dictGet_set_self (d : Dict) (k : String) (v : Atom) :
    dictGet (dictSet d k v) k = some v := by
  induction d with
  | nil => simp [dictSet, dictGet]
  | cons p t ih =>
    rcases p with ⟨k', v'⟩
    by_cases h : k' = k
    · simp [dictSet, dictGet, h]
    · simp [dictSet, dictGet, h, ih]

theorem dictGet_set_other (d : Dict) (k k' : String) (v : Atom) (h : k' ≠ k) :
    dictGet (dictSet d k v) k' = dictGet d k' := by
  induction d with
  | nil => simp [dictSet, dictGet, Ne.symm h]
  | cons p t ih =>
    rcases p with ⟨k₀, v₀⟩
    by_cases h₀ : k₀ = k
    · subst h₀
      simp [dictSet, dictGet, Ne.symm h]
    · simp [dictSet, dictGet, h₀, ih]

theorem dictHasKey_set_of (d : Dict) (k k' : String) (v : Atom)
    (h : dictHasKey d k' = true) : dictHasKey (dictSet d k v) k' = true := by
  by_cases e : k' = k
  · subst e; exact dictHasKey_set_self d k' v
  · rw [dictHasKey_set_other d k k' v e]; exact h

/-! ### Per-stage lemmas for the variant-2 item processing -/

theorem hasKey_cond_set (it : Dict) (c : Bool) (k : String) (v : Atom) (k' : String)
    (h : k' ≠ k) :
    dictHasKey (if c then dictSet it k v else it) k' = dictHasKey it k' := by
  cases c
  · rfl
  · simpa using dictHasKey_set_other it k k' v h

theorem get_cond_set (it : Dict) (c : Bool) (k : String) (v : Atom) (k' : String)
    (h : k' ≠ k) :
    dictGet (if c then dictSet it k v else it) k' = dictGet it k' := by
  cases c
  · rfl
  · simpa using dictGet_set_other it k k' v h

theorem hasKey_cond_set_of (it : Dict) (c : Bool) (k : String) (v : Atom) (k' : String)
    (h : dictHasKey it k' = true) :
    dictHasKey (if c then dictSet it k v else it) k' = true := by
  cases c
  · simpa using h
  · simpa using dictHasKey_set_of it k k' v h

/-! ### Structural lemmas about the page loop -/

theorem skippedB_ok (d : PageData) : skippedB (PageOut.ok d) = (!d.truthy || isCopia d) := rfl

theorem pageStep_err (fn : String) (s : RState) (m : String) :
    pageStep fn s (PageOut.err m) = RState.mk s.ultimo s.items s.resumen (s.errors ++ [m]) := rfl

theorem pageStep_skip (fn : String) (s : RState) (d : PageData)
    (h : (!d.truthy || isCopia d) = true) :
    pageStep fn s (PageOut.ok d) = s := by
  simp [pageStep, h]

theorem pageStep_ok (fn : String) (s : RState) (d : PageData)
    (h : (!d.truthy || isCopia d) = false) :
    pageStep fn s (PageOut.ok d) =
      RState.mk (resolvedId s d)
        (s.items ++ (itemsOf d).map (tagItem (resolvedId s d)))
        (if (!(s.resumen.any (rowMatches (resolvedId s d) fn)) && (resolvedId s d != "S/N"))
         then s.resumen ++
           [SummaryRow.mk fn (resolvedId s d) (d.total_factura.getD Atom.aNone)
             (d.cliente.getD Atom.aNone)]
         else s.resumen)
        s.errors := by
  simp only [pageStep, h, Bool.false_eq_true, if_false, resolvedId]

theorem pageStep_ultimo_skipped (fn : String) (s : RState) (p : PageOut)
    (h : skippedB p = true) :
    (pageStep fn s p).ultimo = s.ultimo := by
  cases p with
  | err m => rfl
  | ok d =>
    rw [pageStep_skip fn s d h]

theorem pageStep_ultimo_ok (fn : String) (s : RState) (d : PageData)
    (h : (!d.truthy || isCopia d) = false) :
    (pageStep fn s (PageOut.ok d)).ultimo = resolvedId s d := by
  rw [pageStep_ok fn s d h]

theorem pageStep_ultimo_not_contrib (fn : String) (s : RState) (p : PageOut)
    (h : contributesId p = false) :
    (pageStep fn s p).ultimo = s.ultimo := by
  cases p with
  | err m => rfl
  | ok d =>
    by_cases hs : (!d.truthy || isCopia d) = true
    · rw [pageStep_skip fn s d hs]
    · have hs' : (!d.truthy || isCopia d) = false := by
        cases hb : (!d.truthy || isCopia d)
        · rfl
        · exact absurd hb hs
      have hu : unusableB (candOf d) = true := by
        simp [contributesId, hs'] at h
        exact h
      rw [pageStep_ultimo_ok fn s d hs', resolvedId, hu]
      simp

theorem runFrom_append (fn : String) (s : RState) (l l' : List PageOut) :
    runFrom fn s (l ++ l') = runFrom fn (runFrom fn s l) l' := by
  induction l generalizing s with
  | nil => rfl
  | cons p t ih => simp [runFrom, ih]

theorem runFrom_ultimo_no_usable (fn : String) (s : RState) (l : List PageOut)
    (h : noUsableId l = true) :
    (runFrom fn s l).ultimo = s.ultimo := by
  induction l generalizing s with
  | nil => rfl
  | cons p t ih =>
    simp only [noUsableId, List.all_cons, Bool.and_eq_true, Bool.not_eq_true'] at h
    have h1 : contributesId p = false := h.1
    have h2 : noUsableId t = true := by simpa [noUsableId] using h.2
    simp only [runFrom]
    rw [ih _ h2, pageStep_ultimo_not_contrib fn s p h1]

theorem skipped_not_contrib (p : PageOut) (h : skippedB p = true) :
    contributesId p = false := by
  cases p with
  | err m => rfl
  | ok d =>
    simp only [skippedB] at h
    simp [contributesId, h]

theorem runFrom_ultimo_allSkipped (fn : String) (s : RState) (l : List PageOut)
    (h : allSkipped l = true) :
    (runFrom fn s l).ultimo = s.ultimo := by
  apply runFrom_ultimo_no_usable
  simp only [noUsableId, List.all_eq_true] at *
  intro p hp
  simp only [allSkipped, List.all_eq_true] at h
  simp [skipped_not_contrib p (h p hp)]

theorem pageStep_items_skipped (fn : String) (s : RState) (p : PageOut)
    (h : skippedB p = true) :
    (pageStep fn s p).items = s.items := by
  cases p with
  | err m => rfl
  | ok d => rw [pageStep_skip fn s d h]

theorem pageStep_resumen_skipped (fn : String) (s : RState) (p : PageOut)
    (h : skippedB p = true) :
    (pageStep fn s p).resumen = s.resumen := by
  cases p with
  | err m => rfl
  | ok d => rw [pageStep_skip fn s d h]

theorem runFrom_items_allSkipped (fn : String) (s : RState) (l : List PageOut)
    (h : allSkipped l = true) :
    (runFrom fn s l).items = s.items := by
  induction l generalizing s with
  | nil => rfl
  | cons p t ih =>
    simp only [allSkipped, List.all_cons, Bool.and_eq_true] at h
    simp only [runFrom]
    rw [ih _ (by simpa [allSkipped] using h.2), pageStep_items_skipped fn s p h.1]

/-- Invariant combinator for the variant-2 loop. -/
theorem runFrom_inv (fn : String) (P : RState → Prop)
    (hstep : ∀ s p, P s → P (pageStep fn s p)) :
    ∀ (l : List PageOut) (s : RState), P s → P (runFrom fn s l) := by
  intro l
  induction l with
  | nil => intro s h; exact h
  | cons p t ih =>
    intro s h
    exact ih _ (hstep s p h)

/-- Invariant combinator for the variant-1 loop. -/
theorem runFromV1_inv (fn : String) (P : RState → Prop)
    (hstep : ∀ s p, P s → P (pageStepV1 fn s p)) :
    ∀ (l : List PageOut) (s : RState), P s → P (runFromV1 fn s l) := by
  intro l
  induction l with
  | nil => intro s h; exact h
  | cons p t ih =>
    intro s h
    exact ih _ (hstep s p h)

/-! ### Trace lemmas -/

theorem traceFrom_append (fn : String) (s : RState) (l l' : List PageOut) :
    traceFrom fn s (l ++ l') = traceFrom fn s l ++ traceFrom fn (runFrom fn s l) l' := by
  induction l generalizing s with
  | nil => rfl
  | cons p t ih => simp [traceFrom, runFrom, ih]

theorem traceFrom_length (fn : String) (s : RState) (l : List PageOut) :
    (traceFrom fn s l).length = l.length := by
  induction l generalizing s with
  | nil => rfl
  | cons p t ih => simp [traceFrom, ih]

theorem get?_append_self {α : Type} (l l' : List α) :
    (l ++ l').get? l.length = l'.get? 0 := by
  induction l with
  | nil => rfl
  | cons a t ih => simpa using ih

theorem trace_get_at (fn : String) (s : RState) (l l' : List PageOut) :
    (traceFrom fn s (l ++ l')).get? l.length = (traceFrom fn (runFrom fn s l) l').get? 0 := by
  rw [traceFrom_append]
  have := get?_append_self (traceFrom fn s l) (traceFrom fn (runFrom fn s l) l')
  rwa [traceFrom_length] at this

theorem resolvedOf_nonskip (fn : String) (s : RState) (p : PageOut)
    (h : skippedB p = false) :
    resolvedOf s p = some ((pageStep fn s p).ultimo) := by
  cases p with
  | err m => simp [skippedB] at h
  | ok d =>
    simp only [skippedB] at h
    rw [pageStep_ultimo_ok fn s d h]
    simp [resolvedOf, h]

/-! ### Summary-table lemmas -/

theorem strBeq_comm (a b : String) : (a == b) = (b == a) := by
  by_cases h : a = b
  · subst h; rfl
  · have h1 : (a == b) = false := by simp [h]
    have h2 : (b == a) = false := by simp [Ne.symm h]
    rw [h1, h2]

theorem rowMatches_flip (x r : SummaryRow) :
    rowMatches x.factura x.archivo r = rowMatches r.factura r.archivo x := by
  simp only [rowMatches]
  rw [strBeq_comm r.factura x.factura, strBeq_comm r.archivo x.archivo]

theorem distinctRows_snoc (rs : List SummaryRow) (r : SummaryRow)
    (hd : distinctRows rs = true)
    (hn : rs.any (rowMatches r.factura r.archivo) = false) :
    distinctRows (rs ++ [r]) = true := by
  induction rs with
  | nil => simp [distinctRows]
  | cons x t ih =>
    simp only [List.any_cons, Bool.or_eq_false_iff] at hn
    simp only [distinctRows, Bool.and_eq_true, Bool.not_eq_true'] at hd
    have ht := ih hd.2 hn.2
    show (!((t ++ [r]).any (rowMatches x.factura x.archivo)) && distinctRows (t ++ [r])) = true
    rw [ht]
    have hx : (t ++ [r]).any (rowMatches x.factura x.archivo) = false := by
      rw [List.any_append, hd.1]
      simp only [List.any_cons, List.any_nil, Bool.or_false, Bool.false_or]
      rw [rowMatches_flip]
      exact hn.1
    rw [hx]
    rfl

theorem pageStep_distinct (fn : String) (s : RState) (p : PageOut)
    (h : distinctRows s.resumen = true) :
    distinctRows (pageStep fn s p).resumen = true := by
  cases p with
  | err m => exact h
  | ok d =>
    by_cases hs : (!d.truthy || isCopia d) = true
    · rw [pageStep_skip fn s d hs]; exact h
    · have hs' : (!d.truthy || isCopia d) = false := by
        cases hb : (!d.truthy || isCopia d)
        · rfl
        · exact absurd hb hs
      rw [pageStep_ok fn s d hs']
      by_cases hg : (!(s.resumen.any (rowMatches (resolvedId s d) fn)) &&
          (resolvedId s d != "S/N")) = true
      · simp only [hg, if_true]
        apply distinctRows_snoc _ _ h
        simp only [Bool.and_eq_true, Bool.not_eq_true'] at hg
        exact hg.1
      · simp only [hg]
        simpa using h

theorem pageStep_no_sentinel (fn : String) (s : RState) (p : PageOut)
    (h : s.resumen.all (fun r => r.factura != "S/N") = true) :
    (pageStep fn s p).resumen.all (fun r => r.factura != "S/N") = true := by
  cases p with
  | err m => exact h
  | ok d =>
    by_cases hs : (!d.truthy || isCopia d) = true
    · rw [pageStep_skip fn s d hs]; exact h
    · have hs' : (!d.truthy || isCopia d) = false := by
        cases hb : (!d.truthy || isCopia d)
        · rfl
        · exact absurd hb hs
      rw [pageStep_ok fn s d hs']
      by_cases hg : (!(s.resumen.any (rowMatches (resolvedId s d) fn)) &&
          (resolvedId s d != "S/N")) = true
      · have hg2 : (resolvedId s d != "S/N") = true := by
          simp only [Bool.and_eq_true] at hg
          exact hg.2
        rw [if_pos hg, List.all_append]
        simp only [List.all_cons, List.all_nil, Bool.and_true, h, Bool.true_and]
        exact hg2
      · simp only [hg]
        simpa using h

/-! ### Key lemmas about the variant-2 item processing -/

theorem fixOrigen_hasKey_origen (it : Dict) :
    dictHasKey (fixOrigen it) "origen" = true := by
  by_cases hc : (!dictHasKey it "origen" || dictGet it "origen" == some Atom.aNone) = true
  · simp only [fixOrigen, hc, if_true]
    exact dictHasKey_set_self it "origen" (Atom.aStr "")
  · have hc' : (!dictHasKey it "origen" || dictGet it "origen" == some Atom.aNone) = false := by
      cases hb : (!dictHasKey it "origen" || dictGet it "origen" == some Atom.aNone)
      · rfl
      · exact absurd hb hc
    simp only [fixOrigen, hc', Bool.false_eq_true, if_false]
    simp only [Bool.or_eq_false_iff] at hc'
    simpa using hc'.1

theorem fixCantidad_hasKey (it : Dict) :
    dictHasKey (fixCantidad it) "cantidad" = true := by
  by_cases hc : dictHasKey it "cantidad" = true
  · simp [fixCantidad, hc]
  · have hc' : dictHasKey it "cantidad" = false := by
      cases hb : dictHasKey it "cantidad"
      · rfl
      · exact absurd hb hc
    simp [fixCantidad, hc', dictHasKey_set_self]

theorem fixModelo_hasKey (it : Dict) :
    dictHasKey (fixModelo it) "modelo" = true := by
  by_cases hc : dictHasKey it "modelo" = true
  · simp [fixModelo, hc]
  · have hc' : dictHasKey it "modelo" = false := by
      cases hb : dictHasKey it "modelo"
      · rfl
      · exact absurd hb hc
    simp [fixModelo, hc', dictHasKey_set_self]

theorem fixDescripcion_hasKey (it : Dict) :
    dictHasKey (fixDescripcion it) "descripcion" = true := by
  by_cases hc : dictHasKey it "descripcion" = true
  · simp [fixDescripcion, hc]
  · have hc' : dictHasKey it "descripcion" = false := by
      cases hb : dictHasKey it "descripcion"
      · rfl
      · exact absurd hb hc
    simp [fixDescripcion, hc', dictHasKey_set_self]

theorem fixPrecio_hasKey (it : Dict) :
    dictHasKey (fixPrecio it) "precio_unitario" = true := by
  by_cases hc : dictHasKey it "precio_unitario" = true
  · simp [fixPrecio, hc]
  · have hc' : dictHasKey it "precio_unitario" = false := by
      cases hb : dictHasKey it "precio_unitario"
      · rfl
      · exact absurd hb hc
    simp [fixPrecio, hc', dictHasKey_set_self]

theorem fixOrigen_hasKey_other (it : Dict) (k : String) (h : k ≠ "origen") :
    dictHasKey (fixOrigen it) k = dictHasKey it k := by
  simp only [fixOrigen]
  exact hasKey_cond_set it _ "origen" (Atom.aStr "") k h

theorem fixModelo_hasKey_other (it : Dict) (k : String) (h : k ≠ "modelo") :
    dictHasKey (fixModelo it) k = dictHasKey it k := by
  simp only [fixModelo]
  exact hasKey_cond_set it _ "modelo" (Atom.aStr "") k h

theorem fixDescripcion_hasKey_other (it : Dict) (k : String) (h : k ≠ "descripcion") :
    dictHasKey (fixDescripcion it) k = dictHasKey it k := by
  simp only [fixDescripcion]
  exact hasKey_cond_set it _ "descripcion" (Atom.aStr "") k h

theorem fixCantidad_hasKey_other (it : Dict) (k : String) (h : k ≠ "cantidad") :
    dictHasKey (fixCantidad it) k = dictHasKey it k := by
  simp only [fixCantidad]
  exact hasKey_cond_set it _ "cantidad" (Atom.aInt 0) k h

theorem fixPrecio_hasKey_other (it : Dict) (k : String) (h : k ≠ "precio_unitario") :
    dictHasKey (fixPrecio it) k = dictHasKey it k := by
  simp only [fixPrecio]
  exact hasKey_cond_set it _ "precio_unitario" (Atom.aFloat 0) k h

theorem fixOrigen_get_other (it : Dict) (k : String) (h : k ≠ "origen") :
    dictGet (fixOrigen it) k = dictGet it k := by
  simp only [fixOrigen]
  exact get_cond_set it _ "origen" (Atom.aStr "") k h

theorem fixModelo_get_other (it : Dict) (k : String) (h : k ≠ "modelo") :
    dictGet (fixModelo it) k = dictGet it k := by
  simp only [fixModelo]
  exact get_cond_set it _ "modelo" (Atom.aStr "") k h

theorem fixDescripcion_get_other (it : Dict) (k : String) (h : k ≠ "descripcion") :
    dictGet (fixDescripcion it) k = dictGet it k := by
  simp only [fixDescripcion]
  exact get_cond_set it _ "descripcion" (Atom.aStr "") k h

theorem fixCantidad_get_other (it : Dict) (k : String) (h : k ≠ "cantidad") :
    dictGet (fixCantidad it) k = dictGet it k := by
  simp only [fixCantidad]
  exact get_cond_set it _ "cantidad" (Atom.aInt 0) k h

theorem fixPrecio_get_other (it : Dict) (k : String) (h : k ≠ "precio_unitario") :
    dictGet (fixPrecio it) k = dictGet it k := by
  simp only [fixPrecio]
  exact get_cond_set it _ "precio_unitario" (Atom.aFloat 0) k h

/-- Variant 2 guarantees all six keys on every accepted item. -/
theorem tagItem_complete (fid : String) (it : Dict) :
    itemComplete (tagItem fid it) = true := by
  simp only [itemComplete, tagItem, Bool.and_eq_true]
  refine ⟨⟨⟨⟨⟨?_, ?_⟩, ?_⟩, ?_⟩, ?_⟩, ?_⟩
  · rw [fixPrecio_hasKey_other _ _ (by decide), fixCantidad_hasKey_other _ _ (by decide),
      fixDescripcion_hasKey_other _ _ (by decide), fixModelo_hasKey_other _ _ (by decide),
      fixOrigen_hasKey_other _ _ (by decide)]
    exact dictHasKey_set_self it "Factura_Origen" (Atom.aStr fid)
  · rw [fixPrecio_hasKey_other _ _ (by decide), fixCantidad_hasKey_other _ _ (by decide),
      fixDescripcion_hasKey_other _ _ (by decide)]
    exact fixModelo_hasKey _
  · rw [fixPrecio_hasKey_other _ _ (by decide), fixCantidad_hasKey_other _ _ (by decide)]
    exact fixDescripcion_hasKey _
  · rw [fixPrecio_hasKey_other _ _ (by decide)]
    exact fixCantidad_hasKey _
  · exact fixPrecio_hasKey _
  · rw [fixPrecio_hasKey_other _ _ (by decide), fixCantidad_hasKey_other _ _ (by decide),
      fixDescripcion_hasKey_other _ _ (by decide), fixModelo_hasKey_other _ _ (by decide)]
    exact fixOrigen_hasKey_origen _

theorem setFactura_hasKey_other (fid : String) (it : Dict) (k : String)
    (h : k ≠ "Factura_Origen") :
    dictHasKey (setFactura fid it) k = dictHasKey it k := by
  simp only [setFactura]
  exact dictHasKey_set_other it "Factura_Origen" k (Atom.aStr fid) h

theorem setFactura_get_other (fid : String) (it : Dict) (k : String)
    (h : k ≠ "Factura_Origen") :
    dictGet (setFactura fid it) k = dictGet it k := by
  simp only [setFactura]
  exact dictGet_set_other it "Factura_Origen" k (Atom.aStr fid) h

theorem tagItem_get_cantidad (fid : String) (it : Dict)
    (h : dictHasKey it "cantidad" = false) :
    dictGet (tagItem fid it) "cantidad" = some (Atom.aInt 0) := by
  simp only [tagItem]
  rw [fixPrecio_get_other _ _ (by decide)]
  have hk : dictHasKey (fixDescripcion (fixModelo (fixOrigen (setFactura fid it)))) "cantidad"
      = false := by
    rw [fixDescripcion_hasKey_other _ _ (by decide), fixModelo_hasKey_other _ _ (by decide),
      fixOrigen_hasKey_other _ _ (by decide), setFactura_hasKey_other _ _ _ (by decide)]
    exact h
  simp only [fixCantidad, hk, Bool.not_false, if_true]
  exact dictGet_set_self _ "cantidad" (Atom.aInt 0)

theorem tagItem_get_precio (fid : String) (it : Dict)
    (h : dictHasKey it "precio_unitario" = false) :
    dictGet (tagItem fid it) "precio_unitario" = some (Atom.aFloat 0) := by
  simp only [tagItem]
  have hk : dictHasKey (fixCantidad (fixDescripcion (fixModelo (fixOrigen (setFactura fid it)))))
      "precio_unitario" = false := by
    rw [fixCantidad_hasKey_other _ _ (by decide), fixDescripcion_hasKey_other _ _ (by decide),
      fixModelo_hasKey_other _ _ (by decide), fixOrigen_hasKey_other _ _ (by decide),
      setFactura_hasKey_other _ _ _ (by decide)]
    exact h
  simp only [fixPrecio, hk, Bool.not_false, if_true]
  exact dictGet_set_self _ "precio_unitario" (Atom.aFloat 0)

theorem tagItem_get_origen_default (fid : String) (it : Dict)
    (h : dictHasKey it "origen" = false ∨ dictGet it "origen" = some Atom.aNone) :
    dictGet (tagItem fid it) "origen" = some (Atom.aStr "") := by
  simp only [tagItem]
  rw [fixPrecio_get_other _ _ (by decide), fixCantidad_get_other _ _ (by decide),
    fixDescripcion_get_other _ _ (by decide), fixModelo_get_other _ _ (by decide)]
  have hck : dictHasKey (setFactura fid it) "origen" = dictHasKey it "origen" :=
    setFactura_hasKey_other _ _ _ (by decide)
  have hcg : dictGet (setFactura fid it) "origen" = dictGet it "origen" :=
    setFactura_get_other _ _ _ (by decide)
  have hc : (!dictHasKey (setFactura fid it) "origen" ||
      dictGet (setFactura fid it) "origen" == some Atom.aNone) = true := by
    rw [hck, hcg]
    rcases h with h | h
    · simp [h]
    · simp [h]
  simp only [fixOrigen, hc, if_true]
  exact dictGet_set_self _ "origen" (Atom.aStr "")

theorem tagItem_get_origen_keep (fid : String) (it : Dict)
    (h1 : dictHasKey it "origen" = true) (h2 : dictGet it "origen" ≠ some Atom.aNone) :
    dictGet (tagItem fid it) "origen" = dictGet it "origen" := by
  simp only [tagItem]
  rw [fixPrecio_get_other _ _ (by decide), fixCantidad_get_other _ _ (by decide),
    fixDescripcion_get_other _ _ (by decide), fixModelo_get_other _ _ (by decide)]
  have hck : dictHasKey (setFactura fid it) "origen" = dictHasKey it "origen" :=
    setFactura_hasKey_other _ _ _ (by decide)
  have hcg : dictGet (setFactura fid it) "origen" = dictGet it "origen" :=
    setFactura_get_other _ _ _ (by decide)
  have hc : (!dictHasKey (setFactura fid it) "origen" ||
      dictGet (setFactura fid it) "origen" == some Atom.aNone) = false := by
    rw [hck, hcg]
    simp [h1, h2]
  simp only [fixOrigen, hc, Bool.false_eq_true, if_false]
  exact hcg

theorem tagItem_get_factura (fid : String) (it : Dict) :
    dictGet (tagItem fid it) "Factura_Origen" = some (Atom.aStr fid) := by
  simp only [tagItem]
  rw [fixPrecio_get_other _ _ (by decide), fixCantidad_get_other _ _ (by decide),
    fixDescripcion_get_other _ _ (by decide), fixModelo_get_other _ _ (by decide),
    fixOrigen_get_other _ _ (by decide)]
  exact dictGet_set_self it "Factura_Origen" (Atom.aStr fid)

theorem tagItemV1_hasKeys (fn fid : String) (it : Dict) :
    (dictHasKey (tagItemV1 fn fid it) "Archivo_Origen" &&
     dictHasKey (tagItemV1 fn fid it) "Factura_Origen") = true := by
  simp only [tagItemV1, Bool.and_eq_true]
  constructor
  · exact dictHasKey_set_of _ "Factura_Origen" "Archivo_Origen" _
      (dictHasKey_set_self it "Archivo_Origen" (Atom.aStr fn))
  · exact dictHasKey_set_self _ "Factura_Origen" (Atom.aStr fid)

/-! ### Variant-1 lemmas -/

theorem pageStepV1_skip (fn : String) (s : RState) (d : PageData)
    (h : (!d.truthy || isCopia d) = true) :
    pageStepV1 fn s (PageOut.ok d) = s := by
  simp [pageStepV1, h]

theorem pageStepV1_ok (fn : String) (s : RState) (d : PageData)
    (h : (!d.truthy || isCopia d) = false) :
    pageStepV1 fn s (PageOut.ok d) =
      RState.mk (resolvedId s d)
        (s.items ++ (itemsOf d).map (tagItemV1 fn (resolvedId s d)))
        (if (!(s.resumen.any (rowMatches (resolvedId s d) fn)) && (resolvedId s d != "S/N"))
         then s.resumen ++
           [SummaryRow.mk fn (resolvedId s d) (d.total_factura.getD Atom.aNone)
             (d.cliente.getD Atom.aNone)]
         else s.resumen)
        s.errors := by
  simp only [pageStepV1, h, Bool.false_eq_true, if_false, resolvedId]

/-! ### Item-collection invariants -/

theorem pageStep_items_complete (fn : String) (s : RState) (p : PageOut)
    (h : s.items.all itemComplete = true) :
    (pageStep fn s p).items.all itemComplete = true := by
  cases p with
  | err m => exact h
  | ok d =>
    by_cases hs : (!d.truthy || isCopia d) = true
    · rw [pageStep_skip fn s d hs]; exact h
    · have hs' : (!d.truthy || isCopia d) = false := by
        cases hb : (!d.truthy || isCopia d)
        · rfl
        · exact absurd hb hs
      rw [pageStep_ok fn s d hs']
      show ((s.items ++ (itemsOf d).map (tagItem (resolvedId s d))).all itemComplete) = true
      rw [List.all_append, h]
      simp only [Bool.true_and, List.all_eq_true]
      intro it hit
      rcases List.mem_map.mp hit with ⟨it0, _, rfl⟩
      exact tagItem_complete _ it0

theorem pageStepV1_items_tagged (fn : String) (s : RState) (p : PageOut)
    (h : s.items.all
      (fun it => dictHasKey it "Archivo_Origen" && dictHasKey it "Factura_Origen") = true) :
    (pageStepV1 fn s p).items.all
      (fun it => dictHasKey it "Archivo_Origen" && dictHasKey it "Factura_Origen") = true := by
  cases p with
  | err m => exact h
  | ok d =>
    by_cases hs : (!d.truthy || isCopia d) = true
    · rw [pageStepV1_skip fn s d hs]; exact h
    · have hs' : (!d.truthy || isCopia d) = false := by
        cases hb : (!d.truthy || isCopia d)
        · rfl
        · exact absurd hb hs
      rw [pageStepV1_ok fn s d hs']
      show ((s.items ++ (itemsOf d).map (tagItemV1 fn (resolvedId s d))).all _) = true
      rw [List.all_append, h]
      simp only [Bool.true_and, List.all_eq_true]
      intro it hit
      rcases List.mem_map.mp hit with ⟨it0, _, rfl⟩
      exact tagItemV1_hasKeys fn _ it0

/-! ### Concrete pages used by the witnesses below -/

/-- An "Original" page with a usable invoice number and one item. -/
def page1 : PageData :=
  PageData.mk (some (Atom.aStr "Original")) (some (Atom.aStr "300098911"))
    (some (Atom.aFloat 100)) (some (Atom.aStr "ACME"))
    (some [[("modelo", Atom.aStr "A"), ("cantidad", Atom.aInt 4)]]) false []

/-- A second page with the same invoice number as `page1` and one item. -/
def page2 : PageData :=
  PageData.mk (some (Atom.aStr "Original")) (some (Atom.aStr "300098911"))
    (some (Atom.aFloat 100)) (some (Atom.aStr "ACME"))
    (some [[("modelo", Atom.aStr "B")]]) false []

/-- A continuation page: marking "Original", invoice field "CONTINUACION". -/
def contPage : PageData :=
  PageData.mk (some (Atom.aStr "Original")) (some (Atom.aStr "CONTINUACION"))
    none none (some [[("modelo", Atom.aStr "W")]]) false []

/-- A page marked "Copy" (English) with a usable invoice number and one item. -/
def copyPage : PageData :=
  PageData.mk (some (Atom.aStr "Copy")) (some (Atom.aStr "INV75501")) none none
    (some [[("modelo", Atom.aStr "X-1"), ("cantidad", Atom.aInt 2)]]) false []

/-- A page marked "Copia" with a usable invoice number and one item. -/
def copiaPage : PageData :=
  PageData.mk (some (Atom.aStr "Copia")) (some (Atom.aStr "FAC999")) none none
    (some [[("modelo", Atom.aStr "Y")]]) false []

/-- The empty record (`data = {}`). -/
def emptyRecord : PageData := PageData.mk none none none none none false []

/-- An "Original" page whose invoice field is literally "S/N". -/
def snPage : PageData :=
  PageData.mk (some (Atom.aStr "Original")) (some (Atom.aStr "S/N")) none none
    (some [[("modelo", Atom.aStr "M1")]]) false []

/-- An "Original" page with one item that has only a description. -/
def bareItemPage : PageData :=
  PageData.mk (some (Atom.aStr "Original")) (some (Atom.aStr "INV80001")) none none
    (some [[("descripcion", Atom.aStr "widget")]]) false []

/-! ### Claims -/

/-- Claim C7: a page for which the extractor signalled a failure is reported
(the message is appended to the error log), contributes no line items and no
summary row and does not change the carried invoice id, and the loop then
continues with the remaining pages — a per-page failure never aborts the
file. -/
theorem claim7_failure_isolation (fn : String) (s : RState) (m : String) (rest : List PageOut) :
    pageStep fn s (PageOut.err m) = RState.mk s.ultimo s.items s.resumen (s.errors ++ [m])
    ∧ runFrom fn s (PageOut.err m :: rest)
      = runFrom fn (RState.mk s.ultimo s.items s.resumen (s.errors ++ [m])) rest :=
  ⟨rfl, rfl⟩

/-- Claim C8: extractor output that is not a usable structured record — the
empty/falsy record the code tests with `not data` — is silently skipped: the
state is completely unchanged (no items, no summary row, no error entry) and
processing continues with the remaining pages. -/
theorem claim8_empty_skipped (fn : String) (s : RState) (d : PageData) (rest : List PageOut)
    (h : d.truthy = false) :
    pageStep fn s (PageOut.ok d) = s
    ∧ runFrom fn s (PageOut.ok d :: rest) = runFrom fn s rest := by
  have hskip : (!d.truthy || isCopia d) = true := by simp [h]
  have h1 : pageStep fn s (PageOut.ok d) = s := pageStep_skip fn s d hskip
  refine ⟨h1, ?_⟩
  show runFrom fn (pageStep fn s (PageOut.ok d)) rest = runFrom fn s rest
  rw [h1]

theorem claim8_witness :
    pageStep "f.pdf" initS (PageOut.ok emptyRecord) = initS
    ∧ runFrom "f.pdf" initS [PageOut.ok emptyRecord] = runFrom "f.pdf" initS [] :=
  claim8_empty_skipped "f.pdf" initS emptyRecord [] (by decide)

/-- Claim C9: a skipped page — extraction failure, empty record, or "copia"
marking — never changes the carried `ultimo_numero_factura`, even when the
skipped page itself carries a usable invoice id; conversely the carried
state changes only at a non-skipped page with a usable candidate, and then
it becomes that candidate. -/
theorem claim9_skip_frame (fn : String) (s : RState) (p : PageOut) :
    (skippedB p = true → (pageStep fn s p).ultimo = s.ultimo)
    ∧ ((pageStep fn s p).ultimo ≠ s.ultimo →
        skippedB p = false ∧
        ∃ d, p = PageOut.ok d ∧ unusableB (candOf d) = false ∧
          (pageStep fn s p).ultimo = candOf d) := by
  constructor
  · intro h
    exact pageStep_ultimo_skipped fn s p h
  · intro hne
    have hns : skippedB p = false := by
      cases hb : skippedB p
      · rfl
      · exact absurd (pageStep_ultimo_skipped fn s p hb) hne
    refine ⟨hns, ?_⟩
    cases p with
    | err m => simp [skippedB] at hns
    | ok d =>
      have hsc : (!d.truthy || isCopia d) = false := by simpa [skippedB] using hns
      have hu : unusableB (candOf d) = false := by
        cases hb : unusableB (candOf d)
        · rfl
        · exfalso
          apply hne
          rw [pageStep_ultimo_ok fn s d hsc]
          simp [resolvedId, hb]
      refine ⟨d, rfl, hu, ?_⟩
      rw [pageStep_ultimo_ok fn s d hsc]
      simp [resolvedId, hu]

theorem claim9_witness :
    (pageStep "f.pdf" initS (PageOut.ok copiaPage)).ultimo = initS.ultimo :=
  (claim9_skip_frame "f.pdf" initS (PageOut.ok copiaPage)).1 (by decide)

/-- Claim C10: a non-skipped page whose trimmed candidate is literally
"S/N" is classified usable (3 characters, not a sentinel word): its items
are tagged "S/N", the carried state becomes "S/N", yet the page adds no
summary row, and any later page that carries the "S/N" state forward adds
none either, because the summary guard compares the resolved id against the
literal "S/N". -/
theorem claim10_sn_usable (fn : String) (s : RState) (d : PageData)
    (h1 : skippedB (PageOut.ok d) = false) (h2 : candOf d = "S/N") :
    unusableB (candOf d) = false
    ∧ (pageStep fn s (PageOut.ok d)).ultimo = "S/N"
    ∧ (pageStep fn s (PageOut.ok d)).items = s.items ++ (itemsOf d).map (tagItem "S/N")
    ∧ (pageStep fn s (PageOut.ok d)).resumen = s.resumen
    ∧ (∀ (d' : PageData) (s' : RState), skippedB (PageOut.ok d') = false →
        unusableB (candOf d') = true → s'.ultimo = "S/N" →
        (pageStep fn s' (PageOut.ok d')).resumen = s'.resumen) := by
  have hsc : (!d.truthy || isCopia d) = false := by simpa [skippedB] using h1
  have hu : unusableB (candOf d) = false := by rw [h2]; decide
  have hres : resolvedId s d = "S/N" := by rw [resolvedId, hu, h2]; simp
  refine ⟨hu, ?_, ?_, ?_, ?_⟩
  · rw [pageStep_ultimo_ok fn s d hsc, hres]
  · rw [pageStep_ok fn s d hsc]
    simp [hres]
  · rw [pageStep_ok fn s d hsc]
    simp [hres]
  · intro d' s' h1' h2' h3'
    have hsc' : (!d'.truthy || isCopia d') = false := by simpa [skippedB] using h1'
    rw [pageStep_ok fn s' d' hsc']
    have hres' : resolvedId s' d' = "S/N" := by
      rw [resolvedId, h2', h3']
      simp
    simp [hres']

theorem claim10_witness :
    (pageStep "f.pdf" initS (PageOut.ok snPage)).ultimo = "S/N"
    ∧ (pageStep "f.pdf" initS (PageOut.ok snPage)).resumen = initS.resumen :=
  ⟨(claim10_sn_usable "f.pdf" initS snPage (by decide) (by decide)).2.1,
   (claim10_sn_usable "f.pdf" initS snPage (by decide) (by decide)).2.2.2.1⟩

/-- Claim C3 counterexample: the code's copy filter checks only for the
substring "copia"; a page whose marking is "Copy" — which the claim says is
skipped — is processed: it contributes one line item and one summary row. -/
theorem claim3_counterexample :
    strHasSub (pyLower (markingText copyPage)) "copy" = true
    ∧ (procesar "f.pdf" [PageOut.ok copyPage]).items.length = 1
    ∧ (procesar "f.pdf" [PageOut.ok copyPage]).resumen.length = 1 := by decide

/-- Claim C3 (amended): a page whose marking case-insensitively contains
the substring "copia" is skipped silently — zero line items, zero summary
rows, state unchanged.  (Markings containing only "copy" are NOT skipped:
the filter at lines 151/380 tests only for "copia".) -/
theorem claim3_copia_only (fn : String) (s : RState) (d : PageData)
    (h : isCopia d = true) :
    pageStep fn s (PageOut.ok d) = s := by
  apply pageStep_skip
  simp [h]

theorem claim3_witness :
    pageStep "f.pdf" initS (PageOut.ok copiaPage) = initS :=
  claim3_copia_only "f.pdf" initS copiaPage (by decide)

/-- Claim C2: over one file's run the summary never holds two rows with the
same (file, invoice id) key; and at any state, a non-skipped page whose
resolved id already has a matching summary row still appends its (tagged)
line items but leaves the summary untouched — the existing row, built from
the first page that produced the pair, is not overwritten. -/
theorem claim2_summary_unique (fn : String) (pages : List PageOut) :
    distinctRows (procesar fn pages).resumen = true
    ∧ (∀ (s : RState) (d : PageData), skippedB (PageOut.ok d) = false →
        s.resumen.any (rowMatches (resolvedId s d) fn) = true →
        (pageStep fn s (PageOut.ok d)).resumen = s.resumen
        ∧ (pageStep fn s (PageOut.ok d)).items
          = s.items ++ (itemsOf d).map (tagItem (resolvedId s d))) := by
  constructor
  · exact runFrom_inv fn (fun s => distinctRows s.resumen = true)
      (fun s p h => pageStep_distinct fn s p h) pages initS rfl
  · intro s d hns hex
    have hsc : (!d.truthy || isCopia d) = false := by simpa [skippedB] using hns
    rw [pageStep_ok fn s d hsc]
    refine ⟨?_, rfl⟩
    simp [hex]

theorem claim2_witness :
    distinctRows (procesar "f.pdf" [PageOut.ok page1, PageOut.ok page2]).resumen = true
    ∧ (pageStep "f.pdf" (procesar "f.pdf" [PageOut.ok page1]) (PageOut.ok page2)).resumen
      = (procesar "f.pdf" [PageOut.ok page1]).resumen := by
  refine ⟨(claim2_summary_unique "f.pdf" [PageOut.ok page1, PageOut.ok page2]).1, ?_⟩
  exact ((claim2_summary_unique "f.pdf" []).2 (procesar "f.pdf" [PageOut.ok page1]) page2
    (by decide) (by decide)).1

/-- Claim C4 counterexample: in the first (CSV) script variant an accepted
line item joins the output with no defaulting at all — here the item of a
non-skipped page carries only a description, and the output item still has
no "cantidad", "precio_unitario" or "origen" key. -/
theorem claim4_counterexample :
    (procesarV1 "f.pdf" [PageOut.ok bareItemPage]).items.all
      (fun it => dictHasKey it "cantidad" && dictHasKey it "precio_unitario" &&
        dictHasKey it "origen") = false := by decide

/-- Claim C4 (amended): in the Excel (second) script variant, lines 394-406,
every line item accepted from a non-skipped page has the defaulting rules
applied before it joins the output collection: a missing `cantidad` yields
0, a missing `precio_unitario` yields 0.0, and a missing or None `origen`
yields "" while a present non-None `origen` is preserved, never fabricated.
(The first, CSV, variant at lines 165-169 appends accepted items with only
the source-file and invoice tags and applies no defaulting.) -/
theorem claim4_defaulting_v2 (fn : String) (s : RState) (d : PageData) (it : Dict)
    (hns : skippedB (PageOut.ok d) = false) (hmem : it ∈ itemsOf d) :
    tagItem (resolvedId s d) it ∈ (pageStep fn s (PageOut.ok d)).items
    ∧ (dictHasKey it "cantidad" = false →
        dictGet (tagItem (resolvedId s d) it) "cantidad" = some (Atom.aInt 0))
    ∧ (dictHasKey it "precio_unitario" = false →
        dictGet (tagItem (resolvedId s d) it) "precio_unitario" = some (Atom.aFloat 0))
    ∧ ((dictHasKey it "origen" = false ∨ dictGet it "origen" = some Atom.aNone) →
        dictGet (tagItem (resolvedId s d) it) "origen" = some (Atom.aStr ""))
    ∧ (dictHasKey it "origen" = true → dictGet it "origen" ≠ some Atom.aNone →
        dictGet (tagItem (resolvedId s d) it) "origen" = dictGet it "origen") := by
  have hsc : (!d.truthy || isCopia d) = false := by simpa [skippedB] using hns
  refine ⟨?_, fun h => tagItem_get_cantidad _ it h, fun h => tagItem_get_precio _ it h,
    fun h => tagItem_get_origen_default _ it h,
    fun hk hv => tagItem_get_origen_keep _ it hk hv⟩
  rw [pageStep_ok fn s d hsc]
  show tagItem (resolvedId s d) it ∈ s.items ++ (itemsOf d).map (tagItem (resolvedId s d))
  exact List.mem_append_right _ (List.mem_map_of_mem _ hmem)

theorem claim4_witness :
    tagItem (resolvedId initS bareItemPage) [("descripcion", Atom.aStr "widget")]
      ∈ (pageStep "f.pdf" initS (PageOut.ok bareItemPage)).items
    ∧ dictGet (tagItem (resolvedId initS bareItemPage) [("descripcion", Atom.aStr "widget")])
        "cantidad" = some (Atom.aInt 0) :=
  ⟨(claim4_defaulting_v2 "f.pdf" initS bareItemPage [("descripcion", Atom.aStr "widget")]
      (by decide) (by decide)).1,
   (claim4_defaulting_v2 "f.pdf" initS bareItemPage [("descripcion", Atom.aStr "widget")]
      (by decide) (by decide)).2.1 (by decide)⟩

/-- Claim C5 counterexample: in the Excel (second) script variant an item
leaving the loop is NOT augmented with its source file — no output item has
an "Archivo_Origen" (source-file) key at all. -/
theorem claim5_counterexample :
    (procesar "f.pdf" [PageOut.ok page1]).items.length = 1
    ∧ (procesar "f.pdf" [PageOut.ok page1]).items.all
        (fun it => dictHasKey it "Archivo_Origen") = false := by decide

/-- Claim C5 (amended): every line item leaving the Excel (second) variant's
loop carries the resolved-invoice tag `Factura_Origen` and all five base
fields (`modelo`, `descripcion`, `cantidad`, `precio_unitario`, `origen`) —
but not the source file; every item leaving the CSV (first) variant's loop
carries both the source-file tag `Archivo_Origen` and the invoice tag
`Factura_Origen` — but its base fields are not defaulted. -/
theorem claim5_tagging (fn : String) (pages : List PageOut) :
    (procesar fn pages).items.all itemComplete = true
    ∧ (procesarV1 fn pages).items.all
        (fun it => dictHasKey it "Archivo_Origen" && dictHasKey it "Factura_Origen") = true := by
  constructor
  · exact runFrom_inv fn (fun s => s.items.all itemComplete = true)
      (fun s p h => pageStep_items_complete fn s p h) pages initS rfl
  · exact runFromV1_inv fn
      (fun s => s.items.all
        (fun it => dictHasKey it "Archivo_Origen" && dictHasKey it "Factura_Origen") = true)
      (fun s p h => pageStepV1_items_tagged fn s p h) pages initS rfl

/-- Claim C6: when every page before the current one was skipped and the
current non-skipped page has an unusable invoice candidate, its items are
tagged with the sentinel "S/N"; and in any run no summary row ever carries
the sentinel "S/N" — the sentinel is excluded from the summary. -/
theorem claim6_first_page_sentinel (fn : String) (pre post : List PageOut) (d : PageData)
    (hpre : allSkipped pre = true)
    (hns : skippedB (PageOut.ok d) = false)
    (hun : unusableB (candOf d) = true) :
    (runFrom fn initS (pre ++ [PageOut.ok d])).items = (itemsOf d).map (tagItem "S/N")
    ∧ (procesar fn (pre ++ PageOut.ok d :: post)).resumen.all
        (fun r => r.factura != "S/N") = true := by
  have hsc : (!d.truthy || isCopia d) = false := by simpa [skippedB] using hns
  have hu : (runFrom fn initS pre).ultimo = "S/N" := by
    rw [runFrom_ultimo_allSkipped fn initS pre hpre]
    rfl
  constructor
  · rw [runFrom_append]
    show (pageStep fn (runFrom fn initS pre) (PageOut.ok d)).items = _
    rw [pageStep_ok fn _ d hsc]
    have hi : (runFrom fn initS pre).items = [] := by
      rw [runFrom_items_allSkipped fn initS pre hpre]
      rfl
    simp [resolvedId, hun, hu, hi]
  · exact runFrom_inv fn (fun s => s.resumen.all (fun r => r.factura != "S/N") = true)
      (fun s p h => pageStep_no_sentinel fn s p h) _ initS rfl

theorem claim6_witness :
    (runFrom "f.pdf" initS ([PageOut.err "fail"] ++ [PageOut.ok contPage])).items
      = (itemsOf contPage).map (tagItem "S/N")
    ∧ (procesar "f.pdf" ([PageOut.err "fail"] ++ PageOut.ok contPage :: [])).resumen.all
        (fun r => r.factura != "S/N") = true :=
  claim6_first_page_sentinel "f.pdf" [PageOut.err "fail"] [] contPage
    (by decide) (by decide) (by decide)

/-- Claim C1: on a non-skipped page, if the trimmed invoice candidate is
unusable (empty, a sentinel word case-insensitively, or shorter than 3
characters) the page's resolved id is the carried state, which equals the
resolved id of the nearest preceding non-skipped page and is the sentinel
"S/N" when no preceding page contributed a usable id; if the candidate is
usable the resolved id is the candidate and the carried state is updated to
it. -/
theorem claim1_carry_forward (fn : String) (pre post : List PageOut) (d : PageData)
    (hns : skippedB (PageOut.ok d) = false) :
    (unusableB (candOf d) = true →
      (resolvedTrace fn (pre ++ PageOut.ok d :: post)).get? pre.length
        = some (some ((runFrom fn initS pre).ultimo))
      ∧ (noUsableId pre = true → (runFrom fn initS pre).ultimo = "S/N")
      ∧ (∀ a q b, pre = a ++ q :: b → skippedB q = false → allSkipped b = true →
          (resolvedTrace fn (pre ++ PageOut.ok d :: post)).get? a.length
            = some (some ((runFrom fn initS pre).ultimo))))
    ∧ (unusableB (candOf d) = false →
      (resolvedTrace fn (pre ++ PageOut.ok d :: post)).get? pre.length
        = some (some (candOf d))
      ∧ (runFrom fn initS (pre ++ [PageOut.ok d])).ultimo = candOf d) := by
  have hsc : (!d.truthy || isCopia d) = false := by simpa [skippedB] using hns
  have hget : (resolvedTrace fn (pre ++ PageOut.ok d :: post)).get? pre.length
      = some (resolvedOf (runFrom fn initS pre) (PageOut.ok d)) := by
    rw [resolvedTrace, trace_get_at]
    rfl
  constructor
  · intro hu
    refine ⟨?_, ?_, ?_⟩
    · rw [hget]
      simp [resolvedOf, hsc, resolvedId, hu]
    · intro hnu
      rw [runFrom_ultimo_no_usable fn initS pre hnu]
      rfl
    · intro a q b hpre hq hb
      subst hpre
      have hassoc : (a ++ q :: b) ++ PageOut.ok d :: post
          = a ++ (q :: (b ++ PageOut.ok d :: post)) := by
        simp
      rw [resolvedTrace, hassoc, trace_get_at]
      have hhead : (traceFrom fn (runFrom fn initS a)
          (q :: (b ++ PageOut.ok d :: post))).get? 0
          = some (resolvedOf (runFrom fn initS a) q) := rfl
      rw [hhead, resolvedOf_nonskip fn _ q hq]
      have hsplit : runFrom fn initS (a ++ q :: b)
          = runFrom fn (pageStep fn (runFrom fn initS a) q) b := by
        rw [runFrom_append]
        rfl
      rw [hsplit, runFrom_ultimo_allSkipped fn _ b hb]
  · intro hu
    constructor
    · rw [hget]
      simp [resolvedOf, hsc, resolvedId, hu]
    · rw [runFrom_append]
      show (pageStep fn (runFrom fn initS pre) (PageOut.ok d)).ultimo = candOf d
      rw [pageStep_ultimo_ok fn _ d hsc]
      simp [resolvedId, hu]

theorem claim1_witness :
    (resolvedTrace "f.pdf" [PageOut.ok page1, PageOut.ok contPage]).get? 1
      = some (some "300098911")
    ∧ (resolvedTrace "f.pdf" [PageOut.err "boom", PageOut.ok contPage]).get? 1
      = some (some "S/N") := by
  constructor
  · have h := ((claim1_carry_forward "f.pdf" [PageOut.ok page1] [] contPage (by decide)).1
      (by decide)).1
    exact h.trans (by decide)
  · have h := ((claim1_carry_forward "f.pdf" [PageOut.err "boom"] [] contPage (by decide)).1
      (by decide)).1
    exact h.trans (by decide)

example : unusableB "CONTINUACION" = true := by decide
example : unusableB "" = true := by decide
example : unusableB "AB" = true := by decide
example : unusableB " None " = false := by decide
example : unusableB (pyStrip " None ") = true := by decide
example : unusableB "S/N" = false := by decide
example : unusableB "300098911" = false := by decide
example : isCopia (PageData.mk (some (Atom.aStr "Copia fiel")) none none none none false []) = true := by decide
example : isCopia (PageData.mk (some (Atom.aStr "Copy")) none none none none false []) = false := by decide

end OCR2
